import Mathlib

/-!
# SafeAccess: verification of the mask-gated access pipeline

A shallow embedding of the two Python modules of the SafeAccess repository:

* `mask_system.py` — `MaskAccessSystem`: the inference worker (`_infer`),
  the prediction remapper (`_adjust`), the frame hand-off throttle
  (`_enqueue` / `_infer_loop`), and the per-tick access state machine
  (`_update_access` / `_change_state`).
* `projeto_camera.py` — the credential loop (`tag_autorizada`, `main`).

Times are modelled as rationals (`ℚ`), Python floats as rationals, and
Python exceptions as explicit `Except` results.  JSON values returned by
the inference backend are modelled by the inductive `Json`, and the
dynamic-typing behaviour of the Python code (which attribute/key/type
errors each operation raises, which ones are caught) is reproduced
operation by operation.
-/

namespace SafeAccess

/-- A JSON value as produced by `resp.json()`.  Dicts are association
lists with unique keys (as produced by a JSON parser). -/
inductive Json where
  | null : Json
  | num : ℚ → Json
  | str : String → Json
  | arr : List Json → Json
  | obj : List (String × Json) → Json

/-- The Python exceptions that the embedded code can raise. -/
inductive PyErr where
  | keyError
  | attributeError
  | typeError
  | zeroDivisionError
deriving DecidableEq

/-- Boolean form of `Except.isOk`, to state "this cycle did not raise". -/
def eOk {ε α : Type} : Except ε α → Bool
  | .ok _ => true
  | .error _ => false

/-- Dict lookup (`d[k]` / `d.get(k)` on a parsed-JSON dict): first match
in the association list (keys are unique). -/
def jlookup : List (String × Json) → String → Option Json
  | [], _ => none
  | (k, v) :: rest, key => if k = key then some v else jlookup rest key

/-- A JSON value usable as a Python number in arithmetic with a float. -/
def asNum : Json → Option ℚ
  | .num q => some q
  | _ => none

/-- A JSON value that is a Python `str`. -/
def asStr : Json → Option String
  | .str s => some s
  | _ => none

/-- Python iteration `for p in preds`: lists iterate their elements,
strings their one-character substrings, dicts their keys; numbers and
`None` raise `TypeError`. -/
def pyIter : Json → Except PyErr (List Json)
  | .arr l => .ok l
  | .str s => .ok (s.toList.map (fun c => .str (String.mk [c])))
  | .obj l => .ok (l.map (fun kv => .str kv.1))
  | _ => .error .typeError

/-- Python true division, raising `ZeroDivisionError` on a zero divisor. -/
def pyDiv (a b : ℚ) : Except PyErr ℚ :=
  if b = 0 then .error .zeroDivisionError else .ok (a / b)

/-- Python `v >= q` where `q` is a float: defined only when `v` is a
number, `TypeError` otherwise (mirrors `p["conf"] >= threshold`). -/
def pyGE (v : Json) (q : ℚ) : Except PyErr Bool :=
  match v with
  | .num r => .ok (if q ≤ r then true else false)
  | _ => .error .typeError

/-- Python `s.lower()`, modelled character by character (the class
labels handled by this system are ASCII). -/
def pyLower (s : String) : String := String.mk (s.data.map Char.toLower)

/-- Python `any(f(p) for p in l)`: short-circuits on the first `True`,
propagating the first exception raised while evaluating the generator. -/
def pyAny {α : Type} (f : α → Except PyErr Bool) : List α → Except PyErr Bool
  | [] => .ok false
  | a :: rest =>
    match f a with
    | .error e => .error e
    | .ok true => .ok true
    | .ok false => pyAny f rest

/-- Configuration dataclass `Config` from `mask_system.py` (lines 12–24). -/
structure Config where
  api_key : String
  project : String
  version : String
  resize_dim : ℕ × ℕ := (128, 96)
  conf_threshold : ℚ := 3/10
  mask_conf_threshold : ℚ := 7/10
  frame_skip : ℕ := 10
  infer_interval : ℚ := 1/10
  request_timeout : ℕ := 10
  hold_time : ℚ := 3
  headless : Bool := false

/-- The configuration constructed in `projeto_camera.main` (lines
151–156): only the endpoint fields and `headless` are overridden. -/
def mainCfg : Config :=
  { api_key := "iLrZkatUZLBk7QqnYC8s", project := "cover-2", version := "10",
    headless := true }

/-- One adjusted prediction as built by `MaskAccessSystem._adjust`
(lines 146–149).  The four box fields are forced to be numbers by the
arithmetic that produces them; `conf` is stored untouched (the code
copies `p["confidence"]` with no operation on it), so it keeps its JSON
type. -/
structure Detection where
  x : ℚ
  y : ℚ
  w : ℚ
  h : ℚ
  conf : Json
  cls : String

/-- Python expression `p.get("class", p.get("name", ""))` (line 137): the value under
`"class"` if that key is present (whatever it is), else the value under
`"name"`, else the empty string. -/
def labelVal (fields : List (String × Json)) : Json :=
  (jlookup fields "class").getD ((jlookup fields "name").getD (.str ""))

/-- The body of `_adjust`'s loop for one prediction `p` (lines 136–149).
`.ok none` means the entry was skipped by the `except KeyError: continue`
handler; `.error _` means an uncaught exception aborts `_adjust`.
Evaluation order follows the Python source: the class label is read and
lower-cased first (outside the `try`), then `x`, `width`, `y`, `height`
are read and multiplied (a missing key raises `KeyError`, caught; a
non-numeric value raises `TypeError` at the multiplication, uncaught),
then `confidence` is read with no further operation. -/
def adjustEntry (sx sy : ℚ) (p : Json) : Except PyErr (Option Detection) :=
  match p with
  | .obj fields =>
    match asStr (labelVal fields) with
    | none => .error .attributeError
    | some s =>
      match jlookup fields "x" with
      | none => .ok none
      | some xv =>
        match asNum xv with
        | none => .error .typeError
        | some x =>
          match jlookup fields "width" with
          | none => .ok none
          | some wv =>
            match asNum wv with
            | none => .error .typeError
            | some wd =>
              match jlookup fields "y" with
              | none => .ok none
              | some yv =>
                match asNum yv with
                | none => .error .typeError
                | some y =>
                  match jlookup fields "height" with
                  | none => .ok none
                  | some hv =>
                    match asNum hv with
                    | none => .error .typeError
                    | some hg =>
                      match jlookup fields "confidence" with
                      | none => .ok none
                      | some cv =>
                        .ok (some { x := x * sx - wd * sx / 2,
                                    y := y * sy - hg * sy / 2,
                                    w := wd * sx, h := hg * sy,
                                    conf := cv, cls := pyLower s })
  | _ => .error .attributeError

/-- The `for p in preds` loop of `_adjust` (lines 135–149): collects the
kept entries in order, aborting on the first uncaught exception (in
which case `self.predictions` is never assigned). -/
def adjustList (sx sy : ℚ) : List Json → Except PyErr (List Detection)
  | [] => .ok []
  | p :: rest =>
    match adjustEntry sx sy p with
    | .error e => .error e
    | .ok none => adjustList sx sy rest
    | .ok (some d) =>
      match adjustList sx sy rest with
      | .error e => .error e
      | .ok ds => .ok (d :: ds)

/-- Function `MaskAccessSystem._adjust(preds, dims)` (lines 131–150) with
`dims = (hh, ww)` (the original frame's `shape[:2]`, i.e. height then
width): `sx = w / resize_dim[0]`, `sy = h / resize_dim[1]`, then the
per-entry loop.  Returns the new value of `self.predictions`, or the
uncaught exception. -/
def adjust (cfg : Config) (preds : Json) (hh ww : ℚ) : Except PyErr (List Detection) :=
  match pyDiv ww (cfg.resize_dim.1 : ℚ) with
  | .error e => .error e
  | .ok sx =>
    match pyDiv hh (cfg.resize_dim.2 : ℚ) with
    | .error e => .error e
    | .ok sy =>
      match pyIter preds with
      | .error e => .error e
      | .ok l => adjustList sx sy l

/-! ## The inference worker (`MaskAccessSystem._infer`, lines 113–129) -/

/-- The slice of `MaskAccessSystem` state that `_infer` writes:
`self.predictions` (line 34, published by `_adjust` line 150) and
`self.last_infer` (line 35, set on line 127 only after a fully
successful cycle). -/
structure InferState where
  predictions : List Detection
  last_infer : ℚ

/-- Python expression `resp.json().get("predictions", [])` (line 125): `.get` exists only
on dicts — any other JSON shape raises `AttributeError`; a dict without
the key yields the default `[]`. -/
def jsonGetDefault (v : Json) (key : String) (dflt : Json) : Except PyErr Json :=
  match v with
  | .obj fields => .ok ((jlookup fields key).getD dflt)
  | _ => .error .attributeError

/-- The result-processing stage of `_infer` on a decoded response body:
`data = resp.json().get("predictions", [])` followed by
`self._adjust(data, frame.shape[:2])` where the frame has height `fh`
and width `fw`. -/
def inferParse (cfg : Config) (body : Json) (fh fw : ℚ) : Except PyErr (List Detection) :=
  match jsonGetDefault body "predictions" (.arr []) with
  | .error e => .error e
  | .ok data => adjust cfg data fh fw

/-- The effect of one `_infer` call on the published state.
`resp = none` stands for any cycle that raises before a body is decoded
(connection error, timeout, `raise_for_status` on a non-2xx status,
undecodable JSON) — the `except Exception` handler on line 128 swallows
it.  `resp = some body` is a decoded body; if processing it raises, the
same handler swallows the exception and, because `_adjust` assigns
`self.predictions` only as its last statement (line 150) and
`self.last_infer` is assigned after `_adjust` returns (line 127),
neither field changes.  On success both are replaced.  The function is
total: no exception escapes the worker. -/
def inferStep (cfg : Config) (resp : Option Json) (fh fw now : ℚ) (st : InferState) :
    InferState :=
  match resp with
  | none => st
  | some body =>
    match inferParse cfg body fh fw with
    | .error _ => st
    | .ok dets => { predictions := dets, last_infer := now }

/-! ## The access state machine (`MaskAccessSystem._update_access`, lines 152–175) -/

/-- Constant `MASK_LABELS = {"face-mask"}` (line 27). -/
def MASK_LABELS : List String := ["face-mask"]

/-- Constant `FACE_LABELS = {"face", "balaclava", "mask", "face covering"}` (line 28). -/
def FACE_LABELS : List String := ["face", "balaclava", "mask", "face covering"]

/-- The state-machine slice of `MaskAccessSystem` state: `last_state`
(line 36), `mask_start` (line 37), `access_granted` (line 38). -/
structure SMState where
  last_state : Option String
  mask_start : Option ℚ
  access_granted : Bool
deriving DecidableEq

/-- The `__init__` values (lines 36–38). -/
def initSM : SMState :=
  { last_state := none, mask_start := none, access_granted := false }

/-- Flag `has_mask` (lines 155–158): some prediction whose class is in
`MASK_LABELS` with `conf >= mask_conf_threshold`.  The Python `and`
short-circuits, so the confidence is compared only when the label
matches. -/
def hasMaskE (cfg : Config) (preds : List Detection) : Except PyErr Bool :=
  pyAny (fun p =>
    if p.cls ∈ MASK_LABELS then pyGE p.conf cfg.mask_conf_threshold else .ok false) preds

/-- Flag `has_face` (lines 159–162): some prediction whose class is in
`FACE_LABELS` with `conf >= conf_threshold`. -/
def hasFaceE (cfg : Config) (preds : List Detection) : Except PyErr Bool :=
  pyAny (fun p =>
    if p.cls ∈ FACE_LABELS then pyGE p.conf cfg.conf_threshold else .ok false) preds

/-- Method `_change_state` (lines 177–181): updates `last_state` only on an
actual transition (the log message is ignored here). -/
def changeState (st : SMState) (new_state : Option String) : SMState :=
  if new_state ≠ st.last_state then { st with last_state := new_state } else st

/-- One tick of `_update_access` (lines 152–175) against the current
predictions snapshot at wall-clock time `now`.  Both `has_mask` and
`has_face` are computed before the branch, so an exception in either
aborts the tick. -/
def updateAccess (cfg : Config) (preds : List Detection) (now : ℚ) (st : SMState) :
    Except PyErr SMState :=
  match hasMaskE cfg preds with
  | .error e => .error e
  | .ok has_mask =>
    match hasFaceE cfg preds with
    | .error e => .error e
    | .ok has_face =>
      .ok <|
        if has_mask then
          match st.mask_start with
          | none => { st with mask_start := some now }
          | some t0 =>
            if cfg.hold_time ≤ now - t0 then
              { changeState st (some "liberado") with access_granted := true }
            else st
        else if has_face then
          { changeState { st with mask_start := none } (some "negado") with
              access_granted := false }
        else
          changeState { st with mask_start := none } none

/-- A run of frame ticks: `_update_access` applied to each
`(time, snapshot)` pair in order, aborting on an uncaught exception
(which in the source would kill the capture/update thread). -/
def runTicks (cfg : Config) : List (ℚ × List Detection) → SMState → Except PyErr SMState
  | [], st => .ok st
  | (t, ps) :: rest, st =>
    match updateAccess cfg ps t st with
    | .error e => .error e
    | .ok st' => runTicks cfg rest st'

/-! ## The frame hand-off and throttle
(`MaskAccessSystem._enqueue` lines 100–103, `queue = Queue(maxsize=1)`
line 40, `_infer_loop` lines 105–111, `_infer` timing lines 118–127)

The capture thread and the single worker thread interleave; an execution
is a list of timestamped events applied to the dispatcher state.  A
frame is identified by its submission time. -/

/-- The dispatcher-visible state: the pending-frame queue contents, the
timestamp of the last *successful* inference completion (`last_infer`),
whether the worker currently has a request in flight, and the log of
times at which network calls were issued. -/
structure DispState where
  pending : List ℚ
  last_infer : ℚ
  inflight : Bool
  calls : List ℚ
deriving DecidableEq

/-- Initial dispatcher state from `__init__`: empty queue (line 40), `last_infer = 0.0` (line 35), no
call in flight, no calls issued. -/
def initDisp : DispState :=
  { pending := [], last_infer := 0, inflight := false, calls := [] }

/-- An event of the interleaved execution, tagged with the wall-clock
time at which it happens. -/
inductive DispEvent where
  | enqueue (t : ℚ)
  | dequeue (t : ℚ)
  | complete (t : ℚ) (ok : Bool)

/-- The timestamp of an event. -/
def eventTime : DispEvent → ℚ
  | .enqueue t => t
  | .dequeue t => t
  | .complete t _ => t

/-- One event step.

* `enqueue t`: `_enqueue` (lines 100–103) — the frame is put only when
  the queue is empty **and** more than `infer_interval` seconds have
  elapsed since `last_infer`; otherwise the call is a silent no-op
  (`queue.put` is modelled as an append; the guard makes it reachable
  only from an empty queue, which is why the `maxsize=1` put never
  blocks the capture thread).
* `dequeue t`: the worker's `queue.get` (line 108) followed by the
  `session.post` of `_infer` (line 119): possible only when a frame is
  pending and the single worker is not already in a call; the call-issue
  time `t` is recorded.
* `complete t ok`: the network call returns; only a fully successful
  cycle (2xx status, parse and `_adjust` succeed) updates `last_infer`
  (line 127); any failed cycle leaves it unchanged (lines 128–129). -/
def dispStep (cfg : Config) (st : DispState) : DispEvent → DispState
  | .enqueue t =>
    if st.pending = [] ∧ cfg.infer_interval < t - st.last_infer then
      { st with pending := st.pending ++ [t] }
    else st
  | .dequeue t =>
    match st.pending, st.inflight with
    | _ :: _, false =>
      { st with pending := [], inflight := true, calls := st.calls ++ [t] }
    | _, _ => st
  | .complete t ok =>
    if st.inflight then
      { st with inflight := false, last_infer := if ok then t else st.last_infer }
    else st

/-- Folding an event list over the dispatcher state. -/
def dispRun (cfg : Config) : List DispEvent → DispState → DispState
  | [], st => st
  | e :: rest, st => dispRun cfg rest (dispStep cfg st e)

/-! ## The credential loop (`projeto_camera.py`) -/

/-- The credential store: rows `(nome, tag)` of the `tags` table; the
`tag` column is `UNIQUE`. -/
def tag_autorizada (db : List (String × String)) (tag : String) : Option String :=
  (db.find? (fun r => r.2 = tag)).map (fun r => r.1)

/-- One outbound line on the serial actuator channel (lines 132–136,
175). -/
inductive ActuatorMsg where
  | acessoOk
  | acessoNegado
  | lcd (s : String)
deriving DecidableEq

/-- The observable outcome of handling one credential read in `main`'s
loop: the actuator lines written, and whether the detection pipeline was
started (a `MaskAccessSystem` constructed and its thread launched,
lines 177–179). -/
structure TagOutcome where
  msgs : List ActuatorMsg
  pipelineStarted : Bool
deriving DecidableEq

/-- The body of `main`'s loop for one read tag (lines 165–196).
`granted` abstracts whether the deadline-polling loop (lines 181–190)
observed `detector.access_granted` before the 10-second deadline. -/
def handleTag (db : List (String × String)) (tag : String) (granted : Bool) : TagOutcome :=
  match tag_autorizada db tag with
  | none => { msgs := [.acessoNegado], pipelineStarted := false }
  | some _ =>
    { msgs := [.lcd "Aproxime o rosto",
               if granted then .acessoOk else .acessoNegado],
      pipelineStarted := true }

/-! ## Characterization of the mapper's keep/drop behaviour -/

/-- A prediction entry carrying all five keys read inside the `try`
block of `_adjust` (`x`, `width`, `y`, `height`, `confidence`,
lines 139–143). -/
def entryComplete (p : Json) : Bool :=
  match p with
  | .obj fields =>
    (jlookup fields "x").isSome && (jlookup fields "width").isSome &&
    (jlookup fields "y").isSome && (jlookup fields "height").isSome &&
    (jlookup fields "confidence").isSome
  | _ => false

/-- The key `k`, where present, holds a number. -/
def fieldNumOk (fields : List (String × Json)) (k : String) : Bool :=
  match jlookup fields k with
  | none => true
  | some v => (asNum v).isSome

/-- Entries whose processing cannot raise an uncaught exception: an
object whose label value (under `class`, else `name`, else the default
empty string) is a string, and whose `x`, `width`, `y`, `height`
values, where present, are numbers. -/
def entryBehaved (p : Json) : Bool :=
  match p with
  | .obj fields =>
    (asStr (labelVal fields)).isSome &&
    fieldNumOk fields "x" && fieldNumOk fields "width" &&
    fieldNumOk fields "y" && fieldNumOk fields "height"
  | _ => false

/-- The detection produced for a complete entry (scale factors applied
to the center-based box, label lower-cased), `none` for an incomplete
one. -/
def entryDet (sx sy : ℚ) (p : Json) : Option Detection :=
  match p with
  | .obj fields =>
    match jlookup fields "x", jlookup fields "width", jlookup fields "y",
          jlookup fields "height", jlookup fields "confidence" with
    | some xv, some wv, some yv, some hv, some cv =>
      match asNum xv, asNum wv, asNum yv, asNum hv with
      | some x, some wd, some y, some hg =>
        some { x := x * sx - wd * sx / 2, y := y * sy - hg * sy / 2,
               w := wd * sx, h := hg * sy, conf := cv,
               cls := pyLower ((asStr (labelVal fields)).getD "") }
      | _, _, _, _ => none
    | _, _, _, _, _ => none
  | _ => none

/-! ## General lemmas -/

/-- The label `"face-mask"` is a mask label. -/
lemma face_mask_mem_mask : "face-mask" ∈ MASK_LABELS := by decide

/-- The label `"face-mask"` is not a face label. -/
lemma face_mask_not_mem_face : "face-mask" ∉ FACE_LABELS := by decide

/-- The label `"face"` is not a mask label. -/
lemma face_not_mem_mask : "face" ∉ MASK_LABELS := by decide

/-- The label `"face"` is a face label. -/
lemma face_mem_face : "face" ∈ FACE_LABELS := by decide

/-- An `Except` value is `eOk` exactly when it is an `.ok`. -/
lemma eOk_iff {ε α : Type} (e : Except ε α) : eOk e = true ↔ ∃ a, e = .ok a := by
  cases e <;> simp [eOk]

/-- Method `_change_state` always leaves `last_state` equal to the requested
state (either it was already equal, or it is overwritten). -/
lemma changeState_last_state (st : SMState) (s : Option String) :
    (changeState st s).last_state = s := by
  unfold changeState
  split
  · rfl
  · next h => exact (not_ne_iff.mp h).symm

/-- Method `_change_state` does not touch `mask_start`. -/
lemma changeState_mask_start (st : SMState) (s : Option String) :
    (changeState st s).mask_start = st.mask_start := by
  unfold changeState; split <;> rfl

/-- Method `_change_state` does not touch `access_granted`. -/
lemma changeState_access (st : SMState) (s : Option String) :
    (changeState st s).access_granted = st.access_granted := by
  unfold changeState; split <;> rfl

/-- One tick of `_update_access`, with the two detection flags already
evaluated: the branch structure of lines 163–175. -/
lemma updateAccess_eq_ok (cfg : Config) (preds : List Detection) (now : ℚ) (st : SMState)
    {hm hf : Bool} (h1 : hasMaskE cfg preds = .ok hm) (h2 : hasFaceE cfg preds = .ok hf) :
    updateAccess cfg preds now st = .ok (
      if hm then
        match st.mask_start with
        | none => { st with mask_start := some now }
        | some t0 =>
          if cfg.hold_time ≤ now - t0 then
            { changeState st (some "liberado") with access_granted := true }
          else st
      else if hf then
        { changeState { st with mask_start := none } (some "negado") with
            access_granted := false }
      else changeState { st with mask_start := none } none) := by
  unfold updateAccess
  rw [h1, h2]

/-- Splitting a run of ticks at an append. -/
lemma runTicks_append (cfg : Config) (l1 l2 : List (ℚ × List Detection)) (st : SMState) :
    runTicks cfg (l1 ++ l2) st =
      match runTicks cfg l1 st with
      | .error e => .error e
      | .ok st' => runTicks cfg l2 st' := by
  induction l1 generalizing st with
  | nil => simp [runTicks]
  | cons tp tl ih =>
    obtain ⟨t, ps⟩ := tp
    simp only [List.cons_append, runTicks]
    cases updateAccess cfg ps t st <;> simp [ih]

/-- While `has_mask` keeps holding (and `has_face` keeps evaluating
without an exception), a run of ticks never raises and never changes a
recorded `mask_start`: the `if has_mask` branch (lines 163–168) is the
only one taken and it never resets the hold-start. -/
lemma runTicks_mask_preserved (cfg : Config) (l : List (ℚ × List Detection))
    (st : SMState) (t0 : ℚ) (h0 : st.mask_start = some t0)
    (hall : ∀ tp ∈ l, hasMaskE cfg tp.2 = .ok true ∧ eOk (hasFaceE cfg tp.2) = true) :
    ∃ st', runTicks cfg l st = .ok st' ∧ st'.mask_start = some t0 := by
  induction l generalizing st with
  | nil => exact ⟨st, rfl, h0⟩
  | cons tp tl ih =>
    obtain ⟨t, ps⟩ := tp
    obtain ⟨hm, hfok⟩ := hall (t, ps) (List.mem_cons_self _ _)
    obtain ⟨b, hf⟩ := (eOk_iff _).mp hfok
    have hstep := updateAccess_eq_ok cfg ps t st hm hf
    rw [h0] at hstep
    simp only [if_true] at hstep
    by_cases hc : cfg.hold_time ≤ t - t0
    · rw [if_pos hc] at hstep
      simp only [runTicks, hstep]
      exact ih _ (by rw [changeState_mask_start]; exact h0)
        (fun tp htp => hall tp (List.mem_cons_of_mem _ htp))
    · rw [if_neg hc] at hstep
      simp only [runTicks, hstep]
      exact ih _ h0 (fun tp htp => hall tp (List.mem_cons_of_mem _ htp))

/-! ## Claims -/

/-- Claim C3: the prediction mapper converts each center-based raw box
`(x, y, width, height)` at inference resolution `(iw, ih)` into a
corner-based box in original `(w, h)` coordinates via `sx = w/iw`,
`sy = h/ih`, `x1 = x*sx - width*sx/2`, `y1 = y*sy - height*sy/2`,
`width' = width*sx`, `height' = height*sy` (with the class label
lower-cased and the confidence passed through). -/
theorem C3_mapper_formula (cfg : Config) (x y wd hg cf : ℚ) (cl : String) (hh ww : ℚ)
    (h1 : (cfg.resize_dim.1 : ℚ) ≠ 0) (h2 : (cfg.resize_dim.2 : ℚ) ≠ 0) :
    adjust cfg (Json.arr [Json.obj
      [("x", .num x), ("y", .num y), ("width", .num wd), ("height", .num hg),
       ("confidence", .num cf), ("class", .str cl)]]) hh ww
    = .ok [{ x := x * (ww / (cfg.resize_dim.1 : ℚ)) - wd * (ww / (cfg.resize_dim.1 : ℚ)) / 2,
             y := y * (hh / (cfg.resize_dim.2 : ℚ)) - hg * (hh / (cfg.resize_dim.2 : ℚ)) / 2,
             w := wd * (ww / (cfg.resize_dim.1 : ℚ)),
             h := hg * (hh / (cfg.resize_dim.2 : ℚ)),
             conf := .num cf, cls := pyLower cl }] := by
  simp only [adjust, pyDiv, if_neg h1, if_neg h2, pyIter, adjustList, adjustEntry,
    labelVal, jlookup, asNum, asStr, Option.getD, String.reduceEq, reduceIte]

/-- Witness for C3: Scenario 2 of the spec — raw result
`{x:64, y:48, width:40, height:30, confidence:0.8, class:"face-mask"}`
at inference resolution 128×96 with original frame 512×384 maps to
`(x1=176, y1=132, w=160, h=120)`. -/
theorem C3_mapper_formula_witness :
    adjust mainCfg (Json.arr [Json.obj
      [("x", .num 64), ("y", .num 48), ("width", .num 40), ("height", .num 30),
       ("confidence", .num (4/5)), ("class", .str "face-mask")]]) 384 512
    = .ok [{ x := 176, y := 132, w := 160, h := 120,
             conf := .num (4/5), cls := "face-mask" }] := by
  refine (C3_mapper_formula mainCfg 64 48 40 30 (4/5) "face-mask" 384 512
    (by norm_num [mainCfg]) (by norm_num [mainCfg])).trans ?_
  norm_num [mainCfg, Detection.mk.injEq]
  decide

/-- Claim C4 as stated is false: the claim counts any JSON shape other
than an object with a well-formed `predictions` array as a malformed
response after which the previously published `Detections` stay visible
unchanged; but a response whose body is the JSON object `{}` (no
`predictions` key) is processed as a success with the default `[]`
(line 125), and `_adjust` then replaces the published list with `[]`
(line 150), erasing the previous detections. -/
theorem C4_counterexample :
    (inferStep mainCfg (some (Json.obj [])) 384 512 100
      { predictions := [{ x := 0, y := 0, w := 1, h := 1,
                          conf := .num (9/10), cls := "face" }],
        last_infer := 0 }).predictions = []
    ∧ ([{ x := 0, y := 0, w := 1, h := 1, conf := .num (9/10), cls := "face" }]
        : List Detection) ≠ [] := by
  constructor
  · norm_num [inferStep, inferParse, jsonGetDefault, jlookup, adjust, adjustList,
      pyDiv, pyIter, mainCfg, Option.getD]
  · simp

/-- Claim C4 amended: for every inference cycle that raises — network
error, timeout, non-success HTTP status, undecodable body, or a decoded
body whose processing raises (non-object JSON, non-iterable or
ill-typed `predictions` content) — no exception propagates out of the
worker (`inferStep` is a total function) and the previously published
`Detections` list and success timestamp remain visible unchanged.  An
object body whose processing completes is treated as a success, even
when the `predictions` key is absent or entries are dropped, and then
replaces the published list. -/
theorem C4_amended (cfg : Config) (resp : Option Json) (fh fw now : ℚ) (st : InferState)
    (h : ∀ body, resp = some body → eOk (inferParse cfg body fh fw) = false) :
    inferStep cfg resp fh fw now st = st := by
  cases resp with
  | none => rfl
  | some body =>
    have hb := h body rfl
    unfold inferStep
    cases hp : inferParse cfg body fh fw with
    | error e => simp [hp]
    | ok dets => rw [hp] at hb; simp [eOk] at hb

/-- Witness for C4 amended: a cycle whose body is the JSON number `0`
(`.get` raises `AttributeError`) leaves the published state unchanged. -/
theorem C4_amended_witness :
    inferStep mainCfg (some (Json.num 0)) 384 512 7
      { predictions := [{ x := 0, y := 0, w := 1, h := 1,
                          conf := .num (9/10), cls := "face" }],
        last_infer := 5 }
    = { predictions := [{ x := 0, y := 0, w := 1, h := 1,
                          conf := .num (9/10), cls := "face" }],
        last_infer := 5 } :=
  C4_amended mainCfg (some (Json.num 0)) 384 512 7 _
    (fun _ hb => by cases hb; rfl)

/-- Claim C9: for every credential read whose identifier is not in the
credential store, the system emits a denial on the actuator channel
(`ACESSO:NEGADO`, line 170) and never starts the detection pipeline —
no `MaskAccessSystem` is constructed and no thread launched (the
`continue` on line 172 skips lines 174–197) for that read. -/
theorem C9_unregistered_tag (db : List (String × String)) (tag : String) (granted : Bool)
    (h : ∀ r ∈ db, r.2 ≠ tag) :
    handleTag db tag granted = { msgs := [.acessoNegado], pipelineStarted := false } := by
  have hz : tag_autorizada db tag = none := by
    unfold tag_autorizada
    rw [List.find?_eq_none.mpr (fun r hr => by simpa using h r hr)]
    rfl
  simp [handleTag, hz]

/-- Witness for C9: the tag `"ZZ99"` against a store holding only
`"AA11"`. -/
theorem C9_unregistered_tag_witness :
    handleTag [("Alice", "AA11")] "ZZ99" true
    = { msgs := [.acessoNegado], pipelineStarted := false } :=
  C9_unregistered_tag [("Alice", "AA11")] "ZZ99" true (by decide)

/-- Claim C1 as stated is false: once `accessGranted` has latched true,
a later tick whose snapshot has a face without a mask *does* revoke the
grant — the `elif has_face` branch (lines 169–172) sets
`access_granted = False`.  Concretely: two mask ticks at times 0 and 3
(hold time 3) latch the grant, and a face-without-mask tick at time 4
resets `access_granted` to false. -/
theorem C1_counterexample :
    Except.map SMState.access_granted (runTicks mainCfg
      [(0, [{ x := 0, y := 0, w := 1, h := 1, conf := .num (19/20), cls := "face-mask" }]),
       (3, [{ x := 0, y := 0, w := 1, h := 1, conf := .num (19/20), cls := "face-mask" }])]
      initSM) = .ok true
    ∧ hasMaskE mainCfg
        [{ x := 0, y := 0, w := 1, h := 1, conf := .num (9/10), cls := "face" }] = .ok false
    ∧ hasFaceE mainCfg
        [{ x := 0, y := 0, w := 1, h := 1, conf := .num (9/10), cls := "face" }] = .ok true
    ∧ Except.map SMState.access_granted (runTicks mainCfg
      [(0, [{ x := 0, y := 0, w := 1, h := 1, conf := .num (19/20), cls := "face-mask" }]),
       (3, [{ x := 0, y := 0, w := 1, h := 1, conf := .num (19/20), cls := "face-mask" }]),
       (4, [{ x := 0, y := 0, w := 1, h := 1, conf := .num (9/10), cls := "face" }])]
      initSM) = .ok false := by
  refine ⟨?_, ?_, ?_, ?_⟩ <;>
    norm_num [runTicks, updateAccess, hasMaskE, hasFaceE, pyAny, pyGE, changeState,
      initSM, mainCfg, Except.map, face_mask_mem_mask, face_mask_not_mem_face,
      face_not_mem_mask, face_mem_face]

/-- Claim C1 amended: once `accessGranted` is true it stays true on any
subsequent tick whose snapshot still has a qualifying mask or has no
qualifying face; but a tick whose snapshot has a qualifying face and no
qualifying mask sets `accessGranted` back to false (and the state to
Denied) — the grant is not latched against face-without-mask frames.
(In the deployed orchestrator the revocation is rarely observable only
because the polling loop reacts to the first `true` it sees.) -/
theorem C1_amended (cfg : Config) (preds : List Detection) (now : ℚ) (st st' : SMState)
    (hg : st.access_granted = true)
    (h : updateAccess cfg preds now st = .ok st')
    (hsafe : hasMaskE cfg preds = .ok true ∨ hasFaceE cfg preds = .ok false) :
    st'.access_granted = true := by
  cases hM : hasMaskE cfg preds with
  | error e => rw [updateAccess, hM] at h; exact absurd h (by simp)
  | ok hm =>
    cases hF : hasFaceE cfg preds with
    | error e => rw [updateAccess, hM, hF] at h; exact absurd h (by simp)
    | ok hf =>
      rw [updateAccess_eq_ok cfg preds now st hM hF] at h
      simp only [Except.ok.injEq] at h
      subst h
      cases hm with
      | true =>
        simp only [if_true]
        cases hms : st.mask_start with
        | none => simpa using hg
        | some t0 =>
          by_cases hc : cfg.hold_time ≤ now - t0
          · simp [hms, if_pos hc]
          · simp [hms, if_neg hc, hg]
      | false =>
        rcases hsafe with hs | hs
        · rw [hM] at hs; exact absurd hs (by simp)
        · rw [hF] at hs
          simp only [Except.ok.injEq] at hs
          subst hs
          simpa [changeState_access] using hg

/-- Witness for C1 amended: a granted state survives an empty snapshot
(no qualifying face) at time 4. -/
theorem C1_amended_witness :
    updateAccess mainCfg [] 4
      { last_state := some "liberado", mask_start := some 0, access_granted := true }
      = .ok { last_state := none, mask_start := none, access_granted := true }
    ∧ ({ last_state := none, mask_start := none, access_granted := true }
        : SMState).access_granted = true :=
  ⟨rfl, C1_amended mainCfg [] 4
    { last_state := some "liberado", mask_start := some 0, access_granted := true }
    { last_state := none, mask_start := none, access_granted := true }
    rfl rfl (Or.inr rfl)⟩

/-- Claim C2: over any run of ticks in which `hasMask` holds
continuously (and `has_face` evaluates without an exception), the first
tick records the hold-start timestamp `t0` (lines 164–165), the
hold-start is never reset while the mask holds, and any tick at time
`ti` with `ti - t0 ≥ hold_time` — in particular the first such tick —
ends with the state `Granted` (`last_state = "liberado"`) and
`accessGranted = true` (lines 166–168). -/
theorem C2_mask_hold_grants (cfg : Config) (t0 : ℚ) (ps0 : List Detection)
    (mid : List (ℚ × List Detection)) (ti : ℚ) (psi : List Detection) (st0 : SMState)
    (hstart : st0.mask_start = none)
    (hpos : 0 < cfg.hold_time)
    (hall : ∀ tp ∈ (t0, ps0) :: mid ++ [(ti, psi)],
      hasMaskE cfg tp.2 = .ok true ∧ eOk (hasFaceE cfg tp.2) = true)
    (hhold : cfg.hold_time ≤ ti - t0) :
    updateAccess cfg ps0 t0 st0 = .ok { st0 with mask_start := some t0 } ∧
    runTicks cfg ((t0, ps0) :: mid ++ [(ti, psi)]) st0
      = .ok { last_state := some "liberado", mask_start := some t0,
              access_granted := true } := by
  obtain ⟨hm0, hf0ok⟩ := hall (t0, ps0) (List.mem_cons_self _ _)
  obtain ⟨b0, hf0⟩ := (eOk_iff _).mp hf0ok
  have hstep0 : updateAccess cfg ps0 t0 st0 = .ok { st0 with mask_start := some t0 } := by
    rw [updateAccess_eq_ok cfg ps0 t0 st0 hm0 hf0, hstart]
    simp
  refine ⟨hstep0, ?_⟩
  have hmid : ∀ tp ∈ mid, hasMaskE cfg tp.2 = .ok true ∧ eOk (hasFaceE cfg tp.2) = true :=
    fun tp htp => hall tp (List.mem_cons_of_mem _ (List.mem_append_left _ htp))
  obtain ⟨st2, hrun2, hms2⟩ :=
    runTicks_mask_preserved cfg mid { st0 with mask_start := some t0 } t0 rfl hmid
  obtain ⟨hmi, hfiok⟩ := hall (ti, psi)
    (List.mem_cons_of_mem _ (List.mem_append_right _ (List.mem_singleton.mpr rfl)))
  obtain ⟨bi, hfi⟩ := (eOk_iff _).mp hfiok
  have hstepi : updateAccess cfg psi ti st2
      = .ok { last_state := some "liberado", mask_start := some t0,
              access_granted := true } := by
    rw [updateAccess_eq_ok cfg psi ti st2 hmi hfi, hms2]
    simp [if_pos hhold, changeState_last_state, changeState_mask_start, hms2]
  have hfirst : runTicks cfg ((t0, ps0) :: mid ++ [(ti, psi)]) st0
      = runTicks cfg (mid ++ [(ti, psi)]) { st0 with mask_start := some t0 } := by
    simp only [runTicks, hstep0]
    rfl
  rw [hfirst, runTicks_append, hrun2]
  simp only [runTicks, hstepi]

/-- Witness for C2: two mask ticks at times 0 and 3 with the deployed
configuration (`hold_time = 3`) grant access on the second tick. -/
theorem C2_mask_hold_grants_witness :
    0 < mainCfg.hold_time ∧
    runTicks mainCfg
      [(0, [{ x := 0, y := 0, w := 1, h := 1, conf := .num (19/20), cls := "face-mask" }]),
       (3, [{ x := 0, y := 0, w := 1, h := 1, conf := .num (19/20), cls := "face-mask" }])]
      initSM
      = .ok { last_state := some "liberado", mask_start := some 0,
              access_granted := true } := by
  have hpos : 0 < mainCfg.hold_time := by norm_num [mainCfg]
  have hall : ∀ tp ∈ ((0 : ℚ),
        [({ x := 0, y := 0, w := 1, h := 1, conf := .num (19/20), cls := "face-mask" }
          : Detection)]) :: [] ++
        [((3 : ℚ),
          [({ x := 0, y := 0, w := 1, h := 1, conf := .num (19/20), cls := "face-mask" }
            : Detection)])],
      hasMaskE mainCfg tp.2 = .ok true ∧ eOk (hasFaceE mainCfg tp.2) = true := by
    intro tp htp
    simp at htp
    rcases htp with rfl | rfl <;>
      constructor <;>
        norm_num [hasMaskE, hasFaceE, pyAny, pyGE, eOk, mainCfg,
          face_mask_mem_mask, face_mask_not_mem_face]
  have h := (C2_mask_hold_grants mainCfg 0
    [{ x := 0, y := 0, w := 1, h := 1, conf := .num (19/20), cls := "face-mask" }]
    [] 3
    [{ x := 0, y := 0, w := 1, h := 1, conf := .num (19/20), cls := "face-mask" }]
    initSM rfl hpos hall (by norm_num [mainCfg])).2
  refine ⟨hpos, ?_⟩
  simpa using h

/-- Claim C7: on every tick where `hasFace` holds and `hasMask` does
not, the hold-start timer is reset to none and the state becomes Denied
(`last_state = "negado"`, lines 169–172). -/
theorem C7_face_without_mask (cfg : Config) (preds : List Detection) (now : ℚ)
    (st st' : SMState)
    (hm : hasMaskE cfg preds = .ok false) (hf : hasFaceE cfg preds = .ok true)
    (h : updateAccess cfg preds now st = .ok st') :
    st'.mask_start = none ∧ st'.last_state = some "negado" := by
  rw [updateAccess_eq_ok cfg preds now st hm hf] at h
  simp only [Bool.false_eq_true, if_false, if_true, Except.ok.injEq] at h
  subst h
  exact ⟨by simp [changeState_mask_start], by simp [changeState_last_state]⟩

/-- Witness for C7: a single face detection at confidence 0.9 flips a
fresh state to Denied and clears the hold-start. -/
theorem C7_face_without_mask_witness :
    updateAccess mainCfg
      [{ x := 0, y := 0, w := 1, h := 1, conf := .num (9/10), cls := "face" }] 0 initSM
      = .ok { last_state := some "negado", mask_start := none, access_granted := false }
    ∧ ({ last_state := some "negado", mask_start := none, access_granted := false }
        : SMState).mask_start = none
    ∧ ({ last_state := some "negado", mask_start := none, access_granted := false }
        : SMState).last_state = some "negado" := by
  have hm : hasMaskE mainCfg
      [{ x := 0, y := 0, w := 1, h := 1, conf := .num (9/10), cls := "face" }]
      = .ok false := by
    norm_num [hasMaskE, pyAny, face_not_mem_mask]
  have hf : hasFaceE mainCfg
      [{ x := 0, y := 0, w := 1, h := 1, conf := .num (9/10), cls := "face" }]
      = .ok true := by
    norm_num [hasFaceE, pyAny, pyGE, mainCfg, face_mem_face]
  have h : updateAccess mainCfg
      [{ x := 0, y := 0, w := 1, h := 1, conf := .num (9/10), cls := "face" }] 0 initSM
      = .ok { last_state := some "negado", mask_start := none,
              access_granted := false } := by
    rw [updateAccess_eq_ok mainCfg _ 0 initSM hm hf]
    simp [changeState, initSM]
  exact ⟨h, (C7_face_without_mask mainCfg _ 0 initSM _ hm hf h).1,
    (C7_face_without_mask mainCfg _ 0 initSM _ hm hf h).2⟩

/-- Claim C10: on every tick whose snapshot has neither a qualifying
mask nor a qualifying face, the hold-start resets to none and the state
becomes Idle (`last_state = None`), while `accessGranted` keeps its
previous value — the `else` branch (lines 173–175) never touches the
flag, unlike the face-without-mask branch. -/
theorem C10_empty_snapshot_idle (cfg : Config) (preds : List Detection) (now : ℚ)
    (st st' : SMState)
    (hm : hasMaskE cfg preds = .ok false) (hf : hasFaceE cfg preds = .ok false)
    (h : updateAccess cfg preds now st = .ok st') :
    st'.mask_start = none ∧ st'.last_state = none
    ∧ st'.access_granted = st.access_granted := by
  rw [updateAccess_eq_ok cfg preds now st hm hf] at h
  simp only [Bool.false_eq_true, if_false, Except.ok.injEq] at h
  subst h
  exact ⟨by simp [changeState_mask_start], by simp [changeState_last_state],
    by simp [changeState_access]⟩

/-- Witness for C10: an empty snapshot at time 9 sends a granted state
to Idle with the grant flag still true. -/
theorem C10_empty_snapshot_idle_witness :
    updateAccess mainCfg [] 9
      { last_state := some "liberado", mask_start := some 2, access_granted := true }
      = .ok { last_state := none, mask_start := none, access_granted := true }
    ∧ ({ last_state := none, mask_start := none, access_granted := true }
        : SMState).access_granted
      = ({ last_state := some "liberado", mask_start := some 2, access_granted := true }
        : SMState).access_granted :=
  ⟨rfl, (C10_empty_snapshot_idle mainCfg [] 9
    { last_state := some "liberado", mask_start := some 2, access_granted := true }
    { last_state := none, mask_start := none, access_granted := true }
    rfl rfl rfl).2.2⟩

/-- Any single dispatcher step keeps the pending queue at its bound of
one frame: `_enqueue` puts only into an empty queue, and the worker's
`get` empties it. -/
lemma dispStep_pending_le (cfg : Config) (st : DispState) (e : DispEvent)
    (h : st.pending.length ≤ 1) : (dispStep cfg st e).pending.length ≤ 1 := by
  cases e with
  | enqueue t =>
    simp only [dispStep]
    split
    · next hc => simp [hc.1]
    · exact h
  | dequeue t =>
    rcases hp : st.pending with - | ⟨f, rest⟩ <;> rcases hi : st.inflight <;>
      simp [dispStep, hp, hi, h] <;> simpa [hp] using h
  | complete t ok =>
    simp only [dispStep]
    split <;> exact h

/-- Claim C6: the frame hand-off holds at most one pending frame at all
times (`Queue(maxsize=1)`, line 40, together with the `queue.empty()`
guard of `_enqueue`, line 102), and submitting a frame while one is
already pending is a complete no-op: the caller is not blocked (the
guarded put is never reached, so `dispStep` is total), the pending slot
keeps the old frame, and the call log — hence the number of network
calls issued — is unchanged. -/
theorem C6_single_slot (cfg : Config) :
    (∀ evs : List DispEvent, (dispRun cfg evs initDisp).pending.length ≤ 1) ∧
    (∀ (st : DispState) (t : ℚ), st.pending ≠ [] → dispStep cfg st (.enqueue t) = st) := by
  constructor
  · have hrun : ∀ (evs : List DispEvent) (st : DispState), st.pending.length ≤ 1 →
        (dispRun cfg evs st).pending.length ≤ 1 := by
      intro evs
      induction evs with
      | nil => exact fun st h => h
      | cons e tl ih => exact fun st h => ih _ (dispStep_pending_le cfg st e h)
    exact fun evs => hrun evs initDisp (by simp [initDisp])
  · intro st t hne
    simp only [dispStep]
    rw [if_neg]
    rintro ⟨h1, -⟩
    exact hne h1

/-- Witness for C6: a run with a double submit stays within the bound,
and submitting at time 6 while the frame from time 5 is pending changes
nothing. -/
theorem C6_single_slot_witness :
    (dispRun mainCfg [.enqueue 1, .enqueue 2, .dequeue 3] initDisp).pending.length ≤ 1
    ∧ dispStep mainCfg { pending := [5], last_infer := 0, inflight := false, calls := [] }
        (.enqueue 6)
      = { pending := [5], last_infer := 0, inflight := false, calls := [] } :=
  ⟨(C6_single_slot mainCfg).1 _, (C6_single_slot mainCfg).2 _ 6 (by simp)⟩

/-- Claim C5 as stated is false: the throttle compares the submit time
against `last_infer`, which is the completion time of the last fully
*successful* call (line 127) and is checked only at enqueue time (line
102), so two network calls can be issued less than `infer_interval`
seconds apart.  Concrete trace with the deployed `infer_interval = 0.1`
(times in seconds, nondecreasing): a frame is enqueued and posted at
t = 1; the call completes unsuccessfully at t = 1.02 (leaving
`last_infer = 0`); a new frame is enqueued at t = 1.03 — a non-no-op
submit only 0.01 s after a completed call — and immediately posted at
t = 1.03.  The two calls are 0.03 s < 0.1 s apart. -/
theorem C5_counterexample :
    (dispRun mainCfg
      [.enqueue 1, .dequeue 1, .complete (51/50) false,
       .enqueue (103/100), .dequeue (103/100)] initDisp).calls = [1, 103/100]
    ∧ (103/100 : ℚ) - 1 < mainCfg.infer_interval
    ∧ (103/100 : ℚ) - 51/50 < mainCfg.infer_interval
    ∧ dispStep mainCfg
        (dispRun mainCfg [.enqueue 1, .dequeue 1, .complete (51/50) false] initDisp)
        (.enqueue (103/100))
      ≠ dispRun mainCfg [.enqueue 1, .dequeue 1, .complete (51/50) false] initDisp
    ∧ List.Chain' (fun a b => a ≤ b) (List.map eventTime
        [.enqueue 1, .dequeue 1, .complete (51/50) false,
         .enqueue (103/100), .dequeue (103/100)]) := by
  refine ⟨?_, ?_, ?_, ?_, ?_⟩ <;>
    norm_num [dispRun, dispStep, initDisp, mainCfg, eventTime,
      List.chain'_cons, List.chain'_singleton]

/-- Claim C5 amended: `submit` is a no-op whenever less than
`infer_interval` seconds have elapsed since the last *successfully*
completed inference call (the `(now - last_infer) > infer_interval`
guard of line 102) — this caps the enqueue rate relative to the last
successful completion, but it does not keep the call-issue times
themselves `infer_interval` apart: a frame enqueued while a call is in
flight is posted immediately after that call completes, and a failed
call does not update the throttle timestamp. -/
theorem C5_amended (cfg : Config) (st : DispState) (t : ℚ)
    (h : t - st.last_infer < cfg.infer_interval) :
    dispStep cfg st (.enqueue t) = st := by
  simp only [dispStep]
  rw [if_neg]
  rintro ⟨-, h2⟩
  linarith

/-- Witness for C5 amended: a submit at t = 0.05 with no successful
call yet (`last_infer = 0`) and `infer_interval = 0.1` is dropped. -/
theorem C5_amended_witness :
    (1/20 : ℚ) - initDisp.last_infer < mainCfg.infer_interval
    ∧ dispStep mainCfg initDisp (.enqueue (1/20)) = initDisp :=
  ⟨by norm_num [initDisp, mainCfg],
   C5_amended mainCfg initDisp (1/20) (by norm_num [initDisp, mainCfg])⟩

/-- On a well-behaved entry the loop body of `_adjust` cannot raise:
it produces the mapped detection when all five keys are present and
silently skips the entry otherwise. -/
lemma adjustEntry_behaved (sx sy : ℚ) (p : Json) (hb : entryBehaved p = true) :
    adjustEntry sx sy p = .ok (entryDet sx sy p) := by
  cases p with
  | null => simp [entryBehaved] at hb
  | num q => simp [entryBehaved] at hb
  | str s => simp [entryBehaved] at hb
  | arr l => simp [entryBehaved] at hb
  | obj fields =>
    simp only [entryBehaved, Bool.and_eq_true] at hb
    obtain ⟨⟨⟨⟨hlbl, hx⟩, hw⟩, hy⟩, hh2⟩ := hb
    obtain ⟨s, hs⟩ := Option.isSome_iff_exists.mp hlbl
    simp only [adjustEntry, entryDet, hs]
    cases hxl : jlookup fields "x" with
    | none => simp
    | some xv =>
      rw [fieldNumOk, hxl] at hx
      obtain ⟨x, hx2⟩ := Option.isSome_iff_exists.mp hx
      simp only [hx2]
      cases hwl : jlookup fields "width" with
      | none => simp
      | some wv =>
        rw [fieldNumOk, hwl] at hw
        obtain ⟨wd, hw2⟩ := Option.isSome_iff_exists.mp hw
        simp only [hw2]
        cases hyl : jlookup fields "y" with
        | none => simp
        | some yv =>
          rw [fieldNumOk, hyl] at hy
          obtain ⟨y, hy2⟩ := Option.isSome_iff_exists.mp hy
          simp only [hy2]
          cases hhl : jlookup fields "height" with
          | none => simp
          | some hv =>
            rw [fieldNumOk, hhl] at hh2
            obtain ⟨hg, hh3⟩ := Option.isSome_iff_exists.mp hh2
            simp only [hh3]
            cases hcl : jlookup fields "confidence" with
            | none => simp
            | some cv => simp [hs, hx2, hw2, hy2, hh3]

/-- The `for` loop of `_adjust` over well-behaved entries: no uncaught
exception, and the published list is exactly the image of the complete
entries. -/
lemma adjustList_behaved (sx sy : ℚ) (l : List Json)
    (hb : ∀ p ∈ l, entryBehaved p = true) :
    adjustList sx sy l = .ok (l.filterMap (entryDet sx sy)) := by
  induction l with
  | nil => rfl
  | cons p tl ih =>
    have hp := adjustEntry_behaved sx sy p (hb p (List.mem_cons_self _ _))
    have htl := ih (fun q hq => hb q (List.mem_cons_of_mem _ hq))
    cases hd : entryDet sx sy p with
    | none =>
      rw [hd] at hp
      simp [adjustList, hp, htl, List.filterMap_cons, hd]
    | some d =>
      rw [hd] at hp
      simp [adjustList, hp, htl, List.filterMap_cons, hd]

/-- Claim C8 as stated is false: the claim requires every prediction
missing a required field — the spec lists `x, y, width, height,
confidence` *and* a class label under `class` or `name` — to be
dropped; but an entry with the five numeric fields and no label at all
is kept, with the label defaulting to the empty string (the nested
`.get` default on line 137 is outside the `try`), not dropped. -/
theorem C8_counterexample :
    jlookup [("x", Json.num 1), ("y", Json.num 1), ("width", Json.num 2),
             ("height", Json.num 2), ("confidence", Json.num (1/2))] "class" = none
    ∧ jlookup [("x", Json.num 1), ("y", Json.num 1), ("width", Json.num 2),
               ("height", Json.num 2), ("confidence", Json.num (1/2))] "name" = none
    ∧ adjust mainCfg (Json.arr [Json.obj
        [("x", Json.num 1), ("y", Json.num 1), ("width", Json.num 2),
         ("height", Json.num 2), ("confidence", Json.num (1/2))]]) 384 512
      = .ok [{ x := 0, y := 0, w := 8, h := 8, conf := .num (1/2), cls := "" }] := by
  refine ⟨rfl, rfl, ?_⟩
  simp only [adjust, adjustList, adjustEntry, pyDiv, pyIter, jlookup, labelVal,
    asNum, asStr, pyLower, mainCfg, List.map, Option.getD, String.reduceEq,
    reduceIte]
  norm_num

/-- Claim C8 amended: for every raw prediction list of well-behaved
entries (objects whose label value is a string or absent and whose box
fields, where present, are numeric), the mapper produces a `Detection`
for exactly the entries carrying all of `x, y, width, height,
confidence`; entries missing one of those five keys are dropped
silently (the `except KeyError: continue` of lines 144–145), and the
class label is taken from `class`, else `name`, else defaults to the
empty string, and is lower-cased — in particular an entry missing both
`class` and `name` is kept with an empty label, not dropped. -/
theorem C8_amended (cfg : Config) (l : List Json) (hh ww : ℚ)
    (h1 : (cfg.resize_dim.1 : ℚ) ≠ 0) (h2 : (cfg.resize_dim.2 : ℚ) ≠ 0)
    (hb : ∀ p ∈ l, entryBehaved p = true) :
    adjust cfg (Json.arr l) hh ww
      = .ok (l.filterMap (entryDet (ww / (cfg.resize_dim.1 : ℚ))
          (hh / (cfg.resize_dim.2 : ℚ)))) := by
  simp only [adjust, pyDiv, if_neg h1, if_neg h2, pyIter]
  exact adjustList_behaved _ _ l hb

/-- Witness for C8 amended: a list with one complete entry (label under
`name`, mixed case) and one entry missing four keys maps to exactly one
detection with a lower-cased label. -/
theorem C8_amended_witness :
    (∀ p ∈ [Json.obj [("x", Json.num 1), ("y", Json.num 2), ("width", Json.num 2),
              ("height", Json.num 4), ("confidence", Json.num (3/4)),
              ("name", Json.str "Face-Mask")],
            Json.obj [("x", Json.num 5)]], entryBehaved p = true)
    ∧ adjust mainCfg (Json.arr
        [Json.obj [("x", Json.num 1), ("y", Json.num 2), ("width", Json.num 2),
           ("height", Json.num 4), ("confidence", Json.num (3/4)),
           ("name", Json.str "Face-Mask")],
         Json.obj [("x", Json.num 5)]]) 384 512
      = .ok [{ x := 0, y := 0, w := 8, h := 16, conf := .num (3/4),
               cls := "face-mask" }] := by
  refine ⟨by decide, ?_⟩
  refine (C8_amended mainCfg _ 384 512 (by norm_num [mainCfg]) (by norm_num [mainCfg])
    (by decide)).trans ?_
  simp only [List.filterMap_cons, List.filterMap_nil, entryDet, jlookup, labelVal,
    asNum, asStr, pyLower, mainCfg, Option.getD, String.reduceEq, reduceIte]
  norm_num
  decide

end SafeAccess
